import Mathlib

/-!
Shallow embedding of the vscode-latency-monitor core (src/models.rs,
src/storage.rs, src/monitor.rs, src/config.rs, src/main.rs).

Modelling conventions, used throughout:

- Timestamps are modelled as natural numbers counting microseconds since the
  Unix epoch.  In the Rust code a timestamp is a chrono DateTime rendered with
  to_rfc3339 before it reaches SQLite.  ORDER BY (get_recent_events) and
  DELETE (cleanup_old_events) compare two such strings, and to_rfc3339 on UTC
  values is injective and order-preserving, so numeric comparison of the
  underlying instants models those two comparisons.  The WHERE clause of
  get_performance_metrics instead compares a stored string against the
  space-separated text of datetime(); that mixed-format comparison is
  date-granular, not one-hour, and is modelled faithfully at inWindow below.
- A Rust std::time::Duration is modelled by its nanosecond count; the methods
  duration_us and duration_ms are the integer divisions the source performs.
- serde_json::Value is modelled by the inductive Json below.  The source
  serialises metadata with serde_json::to_string and parses it back with
  serde_json::from_str, a library round trip that reproduces the value, so the
  stored metadata column is modelled as carrying the value itself.
- SQLite REAL results (AVG) are modelled by rationals.
-/

/-- Opaque structured payload standing for serde_json::Value (models.rs metadata field). -/
inductive Json where
  | null : Json
  | bool (b : Bool) : Json
  | num (n : Int) : Json
  | str (s : String) : Json
deriving DecidableEq

/-- ComponentType enum from src/models.rs lines 50 to 59. -/
inductive ComponentType where
  | VSCode
  | VSCodeExtension
  | GitHubCopilot
  | LocalModel
  | Terminal
  | FileSystem
  | Network
  | System
deriving DecidableEq

/-- EventSource enum from src/models.rs lines 77 to 86. -/
inductive EventSource where
  | ProcessMonitor
  | ExtensionHost
  | ModelProcess
  | CommandExecution
  | FileOperation
  | NetworkRequest
  | TestCommand
  | UserInteraction
deriving DecidableEq

/-- Debug rendering of ComponentType, as produced by format with the debug
specifier in store_event (storage.rs line 106): the bare variant name. -/
def ComponentType.debugStr : ComponentType → String
  | .VSCode => "VSCode"
  | .VSCodeExtension => "VSCodeExtension"
  | .GitHubCopilot => "GitHubCopilot"
  | .LocalModel => "LocalModel"
  | .Terminal => "Terminal"
  | .FileSystem => "FileSystem"
  | .Network => "Network"
  | .System => "System"

/-- Display rendering of ComponentType from src/models.rs lines 61 to 74. -/
def ComponentType.displayStr : ComponentType → String
  | .VSCode => "VS Code"
  | .VSCodeExtension => "VS Code Extension"
  | .GitHubCopilot => "GitHub Copilot"
  | .LocalModel => "Local Model"
  | .Terminal => "Terminal"
  | .FileSystem => "File System"
  | .Network => "Network"
  | .System => "System"

/-- Debug rendering of EventSource, as produced by store_event (storage.rs line 107). -/
def EventSource.debugStr : EventSource → String
  | .ProcessMonitor => "ProcessMonitor"
  | .ExtensionHost => "ExtensionHost"
  | .ModelProcess => "ModelProcess"
  | .CommandExecution => "CommandExecution"
  | .FileOperation => "FileOperation"
  | .NetworkRequest => "NetworkRequest"
  | .TestCommand => "TestCommand"
  | .UserInteraction => "UserInteraction"

/-- String-to-variant match performed by get_recent_events (storage.rs lines
145 to 154) and get_performance_metrics (storage.rs lines 198 to 207); any
unrecognised string falls through to System. -/
def parseComponentType (s : String) : ComponentType :=
  if s = "VSCode" then .VSCode
  else if s = "VSCodeExtension" then .VSCodeExtension
  else if s = "GitHubCopilot" then .GitHubCopilot
  else if s = "LocalModel" then .LocalModel
  else if s = "Terminal" then .Terminal
  else if s = "FileSystem" then .FileSystem
  else if s = "Network" then .Network
  else .System

/-- LatencyEvent from src/models.rs lines 7 to 15.  The timestamp is in
microseconds since the epoch and the duration is in nanoseconds (conventions
in the file header). -/
structure LatencyEvent where
  id : Option Int
  timestamp : Nat
  component_type : ComponentType
  event_source : EventSource
  durationNanos : Nat
  description : String
  metadata : Json
deriving DecidableEq

/-- duration_us from src/models.rs line 44: Duration::as_micros truncates. -/
def LatencyEvent.duration_us (e : LatencyEvent) : Nat :=
  e.durationNanos / 1000

/-- duration_ms from src/models.rs line 40: Duration::as_millis truncates. -/
def LatencyEvent.duration_ms (e : LatencyEvent) : Nat :=
  e.durationNanos / 1000000

/-- One row of the latency_events table (storage.rs lines 35 to 44):
component_type and event_source are stored as the debug strings, duration as
the microsecond count, metadata as its serde_json serialisation (carried here
as the value, see the file header). -/
structure StoredRow where
  id : Int
  timestamp : Nat
  component_type : String
  event_source : String
  duration_us : Nat
  description : String
  metadata : Json
deriving DecidableEq

/-- Marshalling performed by the INSERT in store_event (storage.rs lines 98
to 112); the id is the AUTOINCREMENT value assigned by SQLite. -/
def eventToRow (rowId : Int) (e : LatencyEvent) : StoredRow :=
  { id := rowId
    timestamp := e.timestamp
    component_type := e.component_type.debugStr
    event_source := e.event_source.debugStr
    duration_us := e.duration_us
    description := e.description
    metadata := e.metadata }

/-- Database state: the rows of latency_events in insertion order. -/
abbrev EventTable := List StoredRow

/-- store_event (storage.rs lines 95 to 116): appends one row; AUTOINCREMENT
assigns ids 1, 2, 3, ... in insertion order. -/
def store_event (db : EventTable) (e : LatencyEvent) : EventTable :=
  db ++ [eventToRow (Int.ofNat db.length + 1) e]

/-- Unmarshalling performed by the row loop of get_recent_events (storage.rs
lines 131 to 173).  Note line 157 of the source: the event_source column is
ignored and every read-back event gets EventSource::ProcessMonitor. -/
def rowToEvent (r : StoredRow) : LatencyEvent :=
  { id := some r.id
    timestamp := r.timestamp
    component_type := parseComponentType r.component_type
    event_source := EventSource.ProcessMonitor
    durationNanos := r.duration_us * 1000
    description := r.description
    metadata := r.metadata }

/-- Ordering used by ORDER BY timestamp DESC: later or equal timestamp first. -/
def tsDesc (a b : StoredRow) : Prop := b.timestamp ≤ a.timestamp

instance : DecidableRel tsDesc := fun a b => Nat.decLe b.timestamp a.timestamp

instance : IsTotal StoredRow tsDesc :=
  ⟨fun a b => (Nat.le_total b.timestamp a.timestamp).imp id id⟩

instance : IsTrans StoredRow tsDesc :=
  ⟨fun _ _ _ hab hbc => Nat.le_trans hbc hab⟩

/-- get_recent_events (storage.rs lines 118 to 176): SELECT ... ORDER BY
timestamp DESC LIMIT limit, then the row-to-event unmarshalling.  The sort is
modelled by insertion sort under tsDesc; SQLite guarantees only the ordering,
which any tsDesc-sort realises. -/
def get_recent_events (db : EventTable) (limit : Nat) : List LatencyEvent :=
  (((db.insertionSort tsDesc).take limit).map rowToEvent)

/-- PerformanceMetrics from src/models.rs lines 104 to 116 (REAL columns as
rationals, timestamps and millisecond durations as naturals). -/
structure PerformanceMetrics where
  component : ComponentType
  total_events : Nat
  avg_duration_ms : ℚ
  min_duration_ms : Nat
  max_duration_ms : Nat
  p50_duration_ms : Nat
  p95_duration_ms : Nat
  p99_duration_ms : Nat
  events_per_second : ℚ
  error_rate : ℚ
  last_updated : Nat

/-- Number of microseconds in one hour, for the cutoff instant of the WHERE
clause of get_performance_metrics (storage.rs line 188). -/
def oneHourUs : Nat := 3600 * 1000000

/-- Number of microseconds in one day: the length of a UTC calendar date,
also used for the retention cutoff. -/
def oneDayUs : Nat := 86400 * 1000000

/-- Row filter of the WHERE clause of get_performance_metrics (storage.rs
line 188), timestamp > datetime('now', '-1 hour').  The stored column holds
to_rfc3339 text of shape YYYY-MM-DDTHH:MM:SS...+00:00 (a T separates date
and time), while datetime() yields YYYY-MM-DD HH:MM:SS (a space separates
them), and SQLite compares TEXT by binary memcmp.  When the two UTC dates
differ, the first ten characters decide, and equal-length digit strings
compare numerically; when the dates are equal, the eleventh character
decides, and T (0x54) exceeds the space (0x20), so the stored string wins.
A row therefore passes exactly when its UTC date is on or after the UTC date
of the instant one hour before now: the effective window is date-granular
(up to about 25 hours), not one hour.  Nat subtraction saturates at zero for
a clock inside the first hour after the epoch, which cannot occur for real
clocks. -/
def inWindow (now : Nat) (r : StoredRow) : Bool :=
  (now - oneHourUs) / oneDayUs ≤ r.timestamp / oneDayUs

/-- Accumulated aggregate of one GROUP BY group: component string, COUNT,
SUM(duration_us), MIN(duration_us), MAX(duration_us). -/
structure GroupAgg where
  key : String
  count : Nat
  sumUs : Nat
  minUs : Nat
  maxUs : Nat
deriving DecidableEq

/-- Folds one row into the aggregate list of its component group, creating the
group on first sight (group keys appear in first-occurrence order). -/
def addToGroup (r : StoredRow) : List GroupAgg → List GroupAgg
  | [] => [⟨r.component_type, 1, r.duration_us, r.duration_us, r.duration_us⟩]
  | g :: gs =>
      if g.key = r.component_type then
        { g with
          count := g.count + 1
          sumUs := g.sumUs + r.duration_us
          minUs := Nat.min g.minUs r.duration_us
          maxUs := Nat.max g.maxUs r.duration_us } :: gs
      else
        g :: addToGroup r gs

/-- Aggregation pass of the SELECT in get_performance_metrics (storage.rs
lines 179 to 193): every stored row passing the window filter (see inWindow:
date-granular, not one-hour) is folded into its group; the second component
counts the rows the aggregation consumed.  There is no other state: the query
starts from the empty aggregate on every call. -/
def metricsScan (now : Nat) : EventTable → List GroupAgg × Nat
  | [] => ([], 0)
  | r :: rest =>
      if inWindow now r then
        (addToGroup r (metricsScan now rest).1, (metricsScan now rest).2 + 1)
      else
        metricsScan now rest

/-- get_performance_metrics (storage.rs lines 178 to 227): aggregates the
in-window rows per component string, converts microseconds to milliseconds
(AVG over 1000.0 as a real, MIN and MAX by integer division), and fills the
remaining fields exactly as the source does: p50, p95 and p99 are the literal
zeros of lines 215 to 217 (TODO in the source), events_per_second and
error_rate are the zeros of lines 218 to 219. -/
def get_performance_metrics (now : Nat) (db : EventTable) : List PerformanceMetrics :=
  ((metricsScan now db).1).map fun g =>
    { component := parseComponentType g.key
      total_events := g.count
      avg_duration_ms := ((g.sumUs : ℚ) / (g.count : ℚ)) / 1000
      min_duration_ms := g.minUs / 1000
      max_duration_ms := g.maxUs / 1000
      p50_duration_ms := 0
      p95_duration_ms := 0
      p99_duration_ms := 0
      events_per_second := 0
      error_rate := 0
      last_updated := now }

/-- cleanup_old_events (storage.rs lines 312 to 324): DELETE FROM
latency_events WHERE timestamp is strictly before now minus retention_days
days.  The Rust function logs rows_affected and returns the unit value of
Result, so the model returns the surviving table and the unit return value. -/
def cleanup_old_events (now : Nat) (retention_days : Nat) (db : EventTable) :
    EventTable × Unit :=
  (db.filter (fun r => !(r.timestamp < now - retention_days * oneDayUs)), ())

/-- Number of rows the DELETE of cleanup_old_events removes (the
rows_affected count that the source only logs). -/
def cleanupRemovedCount (now : Nat) (retention_days : Nat) (db : EventTable) : Nat :=
  db.length - ((cleanup_old_events now retention_days db).1).length

example :
    cleanup_old_events (3 * oneDayUs) 1
      [⟨1, oneDayUs, "VSCode", "TestCommand", 5, "a", .null⟩,
       ⟨2, 2 * oneDayUs, "VSCode", "TestCommand", 5, "b", .null⟩] =
    ([⟨2, 2 * oneDayUs, "VSCode", "TestCommand", 5, "b", .null⟩], ()) := by
  decide

/-- Decimal digit character, as Display of Rust integers renders one digit. -/
def natDigitChar (d : Nat) : Char :=
  match d with
  | 0 => '0' | 1 => '1' | 2 => '2' | 3 => '3' | 4 => '4'
  | 5 => '5' | 6 => '6' | 7 => '7' | 8 => '8' | _ => '9'

/-- Accumulator loop of the decimal rendering (fuel-based structural recursion). -/
def natTextGo (fuel n : Nat) (acc : List Char) : List Char :=
  match fuel with
  | 0 => acc
  | fuel + 1 =>
      if n < 10 then natDigitChar n :: acc
      else natTextGo fuel (n / 10) (natDigitChar (n % 10) :: acc)

/-- Decimal rendering of a natural number, as the Display implementation of
Rust unsigned integers renders values in format strings. -/
def natText (n : Nat) : String := ⟨natTextGo (n + 1) n []⟩

/-- Two-digit zero padding of a calendar field. -/
def pad2 (n : Nat) : String := if n < 10 then "0" ++ natText n else natText n

/-- Gregorian date of a day count since the Unix epoch (standard
civil-from-days conversion; the day counts occurring here are nonnegative). -/
def civilFromDays (z : Nat) : Nat × Nat × Nat :=
  let z' := z + 719468
  let era := z' / 146097
  let doe := z' % 146097
  let yoe := (doe - doe / 1460 + doe / 36524 - doe / 146096) / 365
  let y := yoe + era * 400
  let doy := doe - (365 * yoe + yoe / 4 - yoe / 100)
  let mp := (5 * doy + 2) / 153
  let d := doy - (153 * mp + 2) / 5 + 1
  let m := if mp < 10 then mp + 3 else mp - 9
  (if m ≤ 2 then y + 1 else y, m, d)

/-- Rendering of event.timestamp.format with pattern Y-m-d H:M:S used by the
CSV branch of generate_report (storage.rs line 283), for a timestamp in
microseconds since the epoch. -/
def csvTimestampText (ts : Nat) : String :=
  let s := ts / 1000000
  let c := civilFromDays (s / 86400)
  natText c.1 ++ "-" ++ pad2 c.2.1 ++ "-" ++ pad2 c.2.2 ++ " " ++
    pad2 (s % 86400 / 3600) ++ ":" ++ pad2 (s % 3600 / 60) ++ ":" ++ pad2 (s % 60)

/-- Rendering of the Json payload by serde_json (string escaping elided; no
claim inspects this text). -/
def Json.render : Json → String
  | .null => "null"
  | .bool b => if b then "true" else "false"
  | .num n => toString n
  | .str s => "\"" ++ s ++ "\""

/-- Rendering of one event by serde_json in the JSON branch of
generate_report (storage.rs line 273); the exact pretty-printed shape is
irrelevant to every claim, only that the branch succeeds. -/
def jsonOfEvent (e : LatencyEvent) : String :=
  "\"timestamp\": " ++ toString e.timestamp ++ ", \"component\": \"" ++
    e.component_type.debugStr ++ "\", \"duration_us\": " ++ toString e.duration_us ++
    ", \"description\": \"" ++ e.description ++ "\", \"metadata\": " ++ e.metadata.render

/-- Rendering of an event list by serde_json::to_string_pretty. -/
def jsonOfEvents (es : List LatencyEvent) : String :=
  "[" ++ String.intercalate ", " (es.map jsonOfEvent) ++ "]"

/-- Comma replacement of storage.rs line 286: description.replace with the
comma character pattern and a one-character replacement, which substitutes a
semicolon for every comma. -/
def replaceCommas (s : String) : String :=
  ⟨s.data.map fun c => if c = ',' then ';' else c⟩

/-- One CSV data line of generate_report (storage.rs lines 281 to 287):
timestamp, component Display name, duration in milliseconds, description with
every comma replaced by a semicolon, then a newline. -/
def csvEventLine (e : LatencyEvent) : String :=
  csvTimestampText e.timestamp ++ "," ++ e.component_type.displayStr ++ "," ++
    natText e.duration_ms ++ "," ++ replaceCommas e.description ++ "\n"

/-- CSV header line of generate_report (storage.rs line 278). -/
def csvHeader : String := "timestamp,component,duration_ms,description\n"

/-- generate_report (storage.rs lines 269 to 294): the json and csv branches
render the 100 most recent events; any other format string is an error.  The
since argument is ignored by the source (it is bound as an underscore
parameter). -/
def generate_report (db : EventTable) (_since format : String) : Except String String :=
  if format = "json" then
    .ok (jsonOfEvents (get_recent_events db 100))
  else if format = "csv" then
    .ok ((get_recent_events db 100).foldl (fun csv e => csv ++ csvEventLine e) csvHeader)
  else
    .error ("Unsupported format: " ++ format)

/-- Number of newline characters in a string, for counting report lines
(every produced CSV line is newline-terminated, so the line count of a report
equals its newline count). -/
def newlineCount (s : String) : Nat := s.data.count '\n'

/-- EventBus state: the queued events of the channel created by
LatencyMonitor::new (monitor.rs line 23).  The source channel is
crossbeam_channel::unbounded, so the state is just the queue: there is no
capacity field and no dropped-event counter anywhere in the source. -/
structure EventBus where
  queue : List LatencyEvent
deriving DecidableEq

/-- Sender::send on the unbounded channel (monitor.rs lines 75, 97, 146, 172,
218, 324, 348): with the receiver alive it always succeeds immediately; the
event is enqueued, nothing is checked and nothing is discarded. -/
def busSend (b : EventBus) (e : LatencyEvent) : EventBus :=
  ⟨b.queue ++ [e]⟩

/-- Sequence of sends by producers. -/
def busSendAll (b : EventBus) (es : List LatencyEvent) : EventBus :=
  es.foldl busSend b

/-- Events lost during a sequence of sends: the shortfall of the queue growth
against the number of events sent. -/
def busDropped (b : EventBus) (es : List LatencyEvent) : Nat :=
  b.queue.length + es.length - (busSendAll b es).queue.length

/-- Outcome counters of the consumer loop. -/
structure SinkOutcome where
  storedCount : Nat
  droppedLoggedCount : Nat
  storeAttempts : Nat
deriving DecidableEq

/-- Consumer loop spawned by run_daemon (monitor.rs lines 249 to 257): for
each received event it invokes store_event exactly once (line 253; store_event
itself, storage.rs lines 95 to 116, performs a single INSERT and contains no
retry loop and no backoff).  A failed store is logged via warn and the loop
moves on; the codomain has no error case because the loop never propagates a
storage failure.  The storeOk parameter models which INSERT attempts the
database accepts. -/
def runConsumerLoop (storeOk : LatencyEvent → Bool) : List LatencyEvent → SinkOutcome
  | [] => ⟨0, 0, 0⟩
  | e :: rest =>
      let r := runConsumerLoop storeOk rest
      if storeOk e then
        ⟨r.storedCount + 1, r.droppedLoggedCount, r.storeAttempts + 1⟩
      else
        ⟨r.storedCount, r.droppedLoggedCount + 1, r.storeAttempts + 1⟩

/-- MonitoringConfig from src/config.rs lines 14 to 20. -/
structure MonitoringConfig where
  interval_ms : Nat
  precision : String
  buffer_size : Nat
  enabled_components : List String
deriving DecidableEq

/-- DashboardConfig from src/config.rs lines 22 to 28 (port is a u16). -/
structure DashboardConfig where
  port : Nat
  auto_refresh_ms : Nat
  theme : String
  enable_websocket : Bool
deriving DecidableEq

/-- StorageConfig from src/config.rs lines 30 to 36. -/
structure StorageConfig where
  database_path : String
  retention_days : Nat
  archive_threshold : Nat
  compression_enabled : Bool
deriving DecidableEq

/-- IntegrationsConfig from src/config.rs lines 38 to 44. -/
structure IntegrationsConfig where
  wall_notification_system : Bool
  enhanced_logging : Bool
  copilot_tracking : Bool
  export_prometheus : Bool
deriving DecidableEq

/-- Config from src/config.rs lines 6 to 12. -/
structure Config where
  monitoring : MonitoringConfig
  dashboard : DashboardConfig
  storage : StorageConfig
  integrations : IntegrationsConfig
deriving DecidableEq

/-- Default for Config from src/config.rs lines 46 to 82 (the database path
elides the home directory prefix). -/
def defaultConfig : Config :=
  { monitoring :=
      { interval_ms := 100
        precision := "microsecond"
        buffer_size := 10000
        enabled_components := ["vscode", "models", "terminal"] }
    dashboard :=
      { port := 3030
        auto_refresh_ms := 1000
        theme := "dark"
        enable_websocket := true }
    storage :=
      { database_path := ".local/share/vscode-latency-monitor/metrics.db"
        retention_days := 30
        archive_threshold := 100000
        compression_enabled := true }
    integrations :=
      { wall_notification_system := true
        enhanced_logging := true
        copilot_tracking := true
        export_prometheus := false } }

/-- Config::validate from src/config.rs lines 117 to 136. -/
def Config.validate (c : Config) : Except String Unit :=
  if c.monitoring.interval_ms = 0 then
    .error "Monitoring interval must be greater than 0"
  else if c.monitoring.buffer_size = 0 then
    .error "Buffer size must be greater than 0"
  else if c.dashboard.port < 1024 then
    .error "Dashboard port should be >= 1024"
  else if c.storage.retention_days = 0 then
    .error "Retention days must be greater than 0"
  else
    .ok ()

/-- start_monitoring from src/main.rs lines 198 to 236: dispatch on the
component name, spawning the corresponding sampler tasks (the returned list
names them); an unknown component is the only error.  Storage and monitor
construction (lines 206 to 207) are elided as they cannot fail on a writable
path.  Neither this function nor anything else in main.rs ever calls
Config.validate: the config value is threaded through untouched. -/
def start_monitoring (_cfg : Config) (component : String) (_interval : Nat) :
    Except String (List String) :=
  if component = "vscode" then .ok ["vscode"]
  else if component = "models" then .ok ["models"]
  else if component = "terminal" then .ok ["terminal"]
  else if component = "all" then .ok ["vscode", "models", "terminal"]
  else .error "Invalid component specified"

/-- Process-table entry as exposed by sysinfo to the samplers.  cpu_usage in
the source is an f32 percentage; it is modelled at milli-percent resolution
(so the comparison against 0.1 percent is the exact comparison against 100),
memory in bytes as sysinfo reports it. -/
structure ProcessInfo where
  pid : Nat
  name : String
  cmd : List String
  cpuMilliPercent : Nat
  memoryBytes : Nat
deriving DecidableEq

/-- Char-list test for pat being an initial segment of the second list. -/
def charListStartsWith : List Char → List Char → Bool
  | [], _ => true
  | _ :: _, [] => false
  | p :: ps, c :: cs => p == c && charListStartsWith ps cs

/-- Char-list substring occurrence test. -/
def charListHasSub (pat : List Char) : List Char → Bool
  | [] => charListStartsWith pat []
  | c :: cs => charListStartsWith pat (c :: cs) || charListHasSub pat cs

/-- Substring test standing for str::contains. -/
def strContains (s pat : String) : Bool := charListHasSub pat.data s.data

/-- ASCII lowercase conversion of one character, as str::to_lowercase acts on
the ASCII process names occurring here. -/
def lowerChar (c : Char) : Char :=
  if 65 ≤ c.toNat ∧ c.toNat ≤ 90 then Char.ofNat (c.toNat + 32) else c

/-- Lowercase conversion standing for str::to_lowercase. -/
def strToLower (s : String) : String := ⟨s.data.map lowerChar⟩

/-- Classification rule of the VS Code sampler (monitor.rs lines 51 to 60). -/
def vscodeMatch (p : ProcessInfo) : Bool :=
  let name := strToLower p.name
  strContains name "code" &&
    (strContains name "code-server" || strContains name "code.exe" || name == "code")

/-- Classification rule for extension hosts (monitor.rs lines 81 to 87). -/
def extensionHostMatch (p : ProcessInfo) : Bool :=
  strContains (strToLower p.name) "extensionhost" ||
    p.cmd.any (fun arg => strContains arg "extensionHost")

/-- Classification rule of the terminal sampler (monitor.rs lines 199 to 207). -/
def terminalMatch (p : ProcessInfo) : Bool :=
  let name := strToLower p.name
  name == "bash" || name == "zsh" || name == "fish" || name == "sh" ||
    strContains name "terminal" || strContains name "gnome-terminal" ||
    strContains name "konsole"

/-- LatencyEvent::new from src/models.rs lines 18 to 33: no id yet, capture
time now, empty metadata. -/
def LatencyEvent.new (now : Nat) (ct : ComponentType) (es : EventSource)
    (durNanos : Nat) (descr : String) : LatencyEvent :=
  ⟨none, now, ct, es, durNanos, descr, .null⟩

/-- Rendering of an f32 percentage with one decimal digit (floor in place of
round-half-even; no claim depends on the final digit). -/
def cpuOneDecimal (m : Nat) : String :=
  toString (m / 1000) ++ "." ++ toString (m % 1000 / 100)

/-- One tick of the VS Code sampler loop (monitor.rs lines 44 to 103): one
event per process matching vscodeMatch, then one per process matching
extensionHostMatch, each carrying the elapsed scan time (start_time.elapsed())
as duration and a resource-usage description.  The elapsed parameter stands
for the elapsed nanoseconds at emission. -/
def vscodeTick (now elapsed : Nat) (procs : List ProcessInfo) : List LatencyEvent :=
  ((procs.filter vscodeMatch).map fun p =>
      LatencyEvent.new now .VSCode .ProcessMonitor elapsed
        ("Process " ++ toString p.pid ++ " - CPU: " ++ cpuOneDecimal p.cpuMilliPercent ++
          "%, Memory: " ++ toString (p.memoryBytes / 1024) ++ "KB")) ++
    ((procs.filter extensionHostMatch).map fun p =>
      LatencyEvent.new now .VSCodeExtension .ExtensionHost elapsed
        ("Extension Host " ++ toString p.pid ++ " - CPU: " ++
          cpuOneDecimal p.cpuMilliPercent ++ "%"))

/-- One tick of the terminal sampler loop (monitor.rs lines 192 to 225): the
matched processes are collected, but the emission loop (line 210) emits an
event only when cpu_usage exceeds 0.1 percent, under the source comment about
only logging active terminals. -/
def terminalTick (now elapsed : Nat) (procs : List ProcessInfo) : List LatencyEvent :=
  (procs.filter terminalMatch).filterMap fun p =>
    if p.cpuMilliPercent > 100 then
      some (LatencyEvent.new now .Terminal .ProcessMonitor elapsed
        ("Terminal " ++ toString p.pid ++ " - CPU: " ++ cpuOneDecimal p.cpuMilliPercent ++ "%"))
    else none

/-- Combined emission condition of the terminal loop of monitor.rs lines 199
to 221: classified as a terminal and with cpu_usage above 0.1 percent. -/
def terminalEmits (p : ProcessInfo) : Bool :=
  terminalMatch p && (100 < p.cpuMilliPercent)

/-- Exact nearest-rank order statistic, the reference value the spec calls the
true percentile (the source computes no percentile at all): for the p-th
percentile of n durations, the element of rank the ceiling of p times n over
100 in the ascending sort. -/
def specExactPercentile (p : Nat) (durs : List Nat) : Nat :=
  (durs.insertionSort (· ≤ ·)).getD ((p * durs.length + 99) / 100 - 1) 0

/-! Concrete fixtures used by the counterexample and witness theorems. -/

/-- Concrete event whose source tag is not ProcessMonitor. -/
def probeEvent : LatencyEvent :=
  ⟨none, 1000, .VSCode, .TestCommand, 42000000, "probe", .null⟩

/-- Synthetic clock instant (microseconds since the epoch, during 2025). -/
def synNow : Nat := 1760000000000000

/-- Synthetic stored row number i, duration 10 ms times i plus one, ingested
at the synthetic clock instant (inside the one-hour metrics window). -/
def synRow (i : Nat) : StoredRow :=
  ⟨Int.ofNat (i + 1), synNow, "VSCode", "TestCommand", 10000 * (i + 1), "synthetic", .null⟩

/-- Table of 100 synthetic events with durations uniformly covering 10 ms to
1000 ms in 10 ms steps, the synthetic set of the spec sentence (100 events
uniformly distributed over 1 to 1000 ms). -/
def synDb : EventTable := (List.range 100).map synRow

/-- The same synthetic durations in milliseconds. -/
def synDurationsMs : List Nat := (List.range 100).map fun i => 10 * (i + 1)

/-- Concrete in-window row for the metrics scan-cost counterexample. -/
def recentRow : StoredRow := ⟨1, synNow, "VSCode", "TestCommand", 5000, "r", .null⟩

/-- Row five hours older than the synthetic clock but on the same UTC date
(the synthetic clock falls about 8.9 hours into its day): far outside any
one-hour window, yet it passes the date-granular filter and is scanned. -/
def staleRow : StoredRow :=
  ⟨2, synNow - 5 * oneHourUs, "VSCode", "TestCommand", 7000, "s", .null⟩

/-- Rows for the retention counterexample: two older than the cutoff, one newer. -/
def oldRowA : StoredRow := ⟨1, oneDayUs, "VSCode", "TestCommand", 5, "a", .null⟩

/-- Second old row, one microsecond after oldRowA. -/
def oldRowB : StoredRow := ⟨2, oneDayUs + 1, "Terminal", "TestCommand", 6, "b", .null⟩

/-- Row far inside the retention horizon. -/
def freshRow : StoredRow := ⟨3, 10 * oneDayUs, "VSCode", "TestCommand", 7, "c", .null⟩

/-- Configuration with a monitoring interval of zero, which Config::validate
rejects. -/
def invalidConfig : Config :=
  { defaultConfig with monitoring := { defaultConfig.monitoring with interval_ms := 0 } }

/-- Idle shell process: matched by the terminal classification rule, cpu usage
zero. -/
def idleBash : ProcessInfo := ⟨321, "bash", [], 0, 4096⟩

/-- Stored row whose description contains a newline. -/
def nlRow : StoredRow := ⟨1, 1000, "VSCode", "TestCommand", 2500, "a\nb", .null⟩

/-! Helper lemmas shared by the claim theorems. -/

theorem busSendAll_queue (es : List LatencyEvent) :
    ∀ b : EventBus, (busSendAll b es).queue = b.queue ++ es := by
  induction es with
  | nil => intro b; simp [busSendAll]
  | cons e es ih =>
      intro b
      have h : busSendAll b (e :: es) = busSendAll (busSend b e) es := rfl
      rw [h, ih (busSend b e)]
      simp [busSend]

theorem busDropped_zero (b : EventBus) (es : List LatencyEvent) :
    busDropped b es = 0 := by
  unfold busDropped
  rw [busSendAll_queue es b, List.length_append]
  omega

theorem runConsumerLoop_spec (storeOk : LatencyEvent → Bool) (es : List LatencyEvent) :
    (runConsumerLoop storeOk es).storeAttempts = es.length ∧
      (runConsumerLoop storeOk es).storedCount = (es.filter storeOk).length ∧
      (runConsumerLoop storeOk es).droppedLoggedCount =
        (es.filter fun e => !storeOk e).length := by
  induction es with
  | nil => exact ⟨rfl, rfl, rfl⟩
  | cons e es ih =>
      obtain ⟨h1, h2, h3⟩ := ih
      cases h : storeOk e <;>
        simp [runConsumerLoop, h, h1, h2, h3, List.filter_cons]

theorem metricsScan_rows (now : Nat) (db : EventTable) :
    (metricsScan now db).2 = (db.filter (inWindow now)).length := by
  induction db with
  | nil => rfl
  | cons r rest ih =>
      cases h : inWindow now r <;> simp [metricsScan, h, ih, List.filter_cons]

theorem filterMap_ite_length {α β : Type} (p : α → Prop) [DecidablePred p] (f : α → β)
    (l : List α) :
    (l.filterMap fun a => if p a then some (f a) else none).length =
      (l.filter fun a => decide (p a)).length := by
  induction l with
  | nil => rfl
  | cons a l ih =>
      by_cases h : p a <;> simp [List.filterMap_cons, List.filter_cons, h, ih]

theorem newlineCount_append (s t : String) :
    newlineCount (s ++ t) = newlineCount s + newlineCount t := by
  show (s.data ++ t.data).count _ = _
  exact List.count_append ..

theorem natDigitChar_ne_newline (d : Nat) : ¬ natDigitChar d = '\n' := by
  unfold natDigitChar
  split <;> decide

theorem natTextGo_no_newline :
    ∀ (fuel n : Nat) (acc : List Char), acc.count '\n' = 0 →
      (natTextGo fuel n acc).count '\n' = 0 := by
  intro fuel
  induction fuel with
  | zero => intro n acc h; exact h
  | succ fuel ih =>
      intro n acc h
      unfold natTextGo
      by_cases hn : n < 10
      · rw [if_pos hn, List.count_cons]
        simp [h]
        intro hc
        exact natDigitChar_ne_newline n hc
      · rw [if_neg hn]
        exact ih (n / 10) _ (by
          rw [List.count_cons]
          simp [h]
          intro hc
          exact natDigitChar_ne_newline (n % 10) hc)

theorem newlineCount_natText (n : Nat) : newlineCount (natText n) = 0 :=
  natTextGo_no_newline (n + 1) n [] rfl

theorem newlineCount_pad2 (n : Nat) : newlineCount (pad2 n) = 0 := by
  unfold pad2
  by_cases h : n < 10
  · rw [if_pos h, newlineCount_append, newlineCount_natText]
    decide
  · rw [if_neg h]
    exact newlineCount_natText n

theorem newlineCount_csvTimestampText (ts : Nat) : newlineCount (csvTimestampText ts) = 0 := by
  unfold csvTimestampText
  simp [newlineCount_append, newlineCount_natText, newlineCount_pad2]
  refine ⟨⟨by decide, by decide⟩, by decide⟩

theorem newlineCount_displayStr (c : ComponentType) : newlineCount c.displayStr = 0 := by
  cases c <;> decide

theorem newlineCount_replaceCommas (s : String) (h : newlineCount s = 0) :
    newlineCount (replaceCommas s) = 0 := by
  unfold newlineCount at h ⊢
  rw [List.count_eq_zero] at h ⊢
  intro hm
  obtain ⟨c, hc, hfc⟩ := List.mem_map.mp hm
  by_cases h2 : c = ','
  · simp [h2] at hfc
  · simp [h2] at hfc
    exact h (hfc ▸ hc)

theorem newlineCount_csvEventLine (e : LatencyEvent) (h : newlineCount e.description = 0) :
    newlineCount (csvEventLine e) = 1 := by
  unfold csvEventLine
  simp [newlineCount_append, newlineCount_csvTimestampText, newlineCount_displayStr,
    newlineCount_natText, newlineCount_replaceCommas _ h]
  rfl

theorem newlineCount_csvFold :
    ∀ (es : List LatencyEvent) (init : String),
      (es.all fun e => newlineCount e.description == 0) = true →
      newlineCount (es.foldl (fun csv e => csv ++ csvEventLine e) init) =
        newlineCount init + es.length := by
  intro es
  induction es with
  | nil => intro init _; simp
  | cons e es ih =>
      intro init hall
      rw [List.all_cons, Bool.and_eq_true] at hall
      obtain ⟨h1, h2⟩ := hall
      rw [List.foldl_cons, ih _ h2, newlineCount_append,
        newlineCount_csvEventLine e (by simpa using h1), List.length_cons]
      omega




/-! Claim theorems. -/

/-- C8: for every limit N and every stored-event set, get_recent_events
returns at most N events and their timestamps are non-increasing (most recent
first). -/
theorem C8_recent_events_limit_and_descending (db : EventTable) (limit : Nat) :
    (get_recent_events db limit).length ≤ limit ∧
      (get_recent_events db limit).Pairwise fun a b => b.timestamp ≤ a.timestamp := by
  constructor
  · unfold get_recent_events
    rw [List.length_map]
    exact List.length_take_le limit _
  · unfold get_recent_events
    rw [List.pairwise_map]
    have hs : (db.insertionSort tsDesc).Pairwise tsDesc :=
      List.sorted_insertionSort tsDesc db
    exact (hs.take (n := limit)).imp fun hab => hab

/-- C2 counterexample: filling the bus one past the configured buffer_size
capacity drops nothing: the queue then holds buffer_size plus one events,
exceeding the configured capacity, and the dropped count is zero. -/
theorem C2_counterexample :
    (busSendAll ⟨[]⟩ (List.replicate (defaultConfig.monitoring.buffer_size + 1)
        probeEvent)).queue.length = defaultConfig.monitoring.buffer_size + 1 ∧
      busDropped ⟨[]⟩ (List.replicate (defaultConfig.monitoring.buffer_size + 1)
        probeEvent) = 0 := by
  constructor
  · rw [busSendAll_queue
      (List.replicate (defaultConfig.monitoring.buffer_size + 1) probeEvent) ⟨[]⟩,
      List.nil_append, List.length_replicate]
  · exact busDropped_zero ⟨[]⟩
      (List.replicate (defaultConfig.monitoring.buffer_size + 1) probeEvent)

/-- C2 amended: sends onto the event bus never block and never drop: the
channel is unbounded, every sent event is appended to the queue in order, the
number of dropped events is always zero (no dropped-event counter exists in
the code), and the queue grows by the full number of sent events, without any
capacity limit. -/
theorem C2_bus_unbounded_never_drops (b : EventBus) (es : List LatencyEvent) :
    (busSendAll b es).queue = b.queue ++ es ∧
      (busSendAll b es).queue.length = b.queue.length + es.length ∧
      busDropped b es = 0 := by
  have h := busSendAll_queue es b
  refine ⟨h, ?_, busDropped_zero b es⟩
  rw [h, List.length_append]

/-- C4 counterexample: with a store that rejects the first INSERT of an event
(but would accept a retry), the consumer makes exactly one store attempt and
drops the event: there is no retry and no backoff before the drop. -/
theorem C4_counterexample :
    (runConsumerLoop (fun _ => false) [probeEvent]).storeAttempts = 1 ∧
      (runConsumerLoop (fun _ => false) [probeEvent]).droppedLoggedCount = 1 ∧
      (runConsumerLoop (fun _ => false) [probeEvent]).storedCount = 0 := by
  decide

/-- C4 amended: on a durable-write failure the event is dropped and logged
after a single attempt (store_event is invoked exactly once per event, with no
retry and no backoff); the failure is never propagated back to the emitting
sampler and the consumer loop continues through every subsequent event, so
each event is either stored or dropped-and-logged. -/
theorem C4_single_attempt_then_drop (storeOk : LatencyEvent → Bool)
    (es : List LatencyEvent) :
    (runConsumerLoop storeOk es).storeAttempts = es.length ∧
      (runConsumerLoop storeOk es).storedCount +
        (runConsumerLoop storeOk es).droppedLoggedCount = es.length ∧
      (runConsumerLoop storeOk es).storedCount = (es.filter storeOk).length := by
  obtain ⟨h1, h2, h3⟩ := runConsumerLoop_spec storeOk es
  refine ⟨h1, ?_, h2⟩
  rw [h2, h3]
  exact (List.length_eq_length_filter_add storeOk).symm

/-- C7 counterexample: the purge does delete exactly the too-old rows, but its
return value carries no removal count: runs removing two rows and zero rows
return the same unit value, while the removed counts differ. -/
theorem C7_counterexample :
    cleanupRemovedCount (5 * oneDayUs) 2 [oldRowA, oldRowB, freshRow] = 2 ∧
      cleanupRemovedCount (5 * oneDayUs) 2 [freshRow] = 0 ∧
      (cleanup_old_events (5 * oneDayUs) 2 [oldRowA, oldRowB, freshRow]).2 =
        (cleanup_old_events (5 * oneDayUs) 2 [freshRow]).2 := by
  decide

/-- C7 amended: cleanup_old_events deletes all and only the events whose
timestamp is strictly before now minus retention_days days; an event exactly
at the cutoff is retained (the single, consistent boundary convention of the
strict SQL comparison); the count of removed events is only logged: the
operation returns unit, not the count. -/
theorem C7_purge_strict_cutoff_returns_unit (now R : Nat) (db : EventTable) :
    (∀ r : StoredRow,
        r ∈ (cleanup_old_events now R db).1 ↔
          r ∈ db ∧ ¬(r.timestamp < now - R * oneDayUs)) ∧
      cleanupRemovedCount now R db =
        (db.filter fun r => r.timestamp < now - R * oneDayUs).length ∧
      (cleanup_old_events now R db).2 = () := by
  refine ⟨?_, ?_, rfl⟩
  · intro r
    unfold cleanup_old_events
    simp [List.mem_filter]
  · unfold cleanupRemovedCount cleanup_old_events
    have h := List.length_eq_length_filter_add
      (l := db) (fun r => decide (r.timestamp < now - R * oneDayUs))
    simp only [h]
    omega

/-- C6: main never calls Config::validate, so a configuration that validate
rejects (monitoring interval zero) still starts monitoring tasks: validate
reports the error, yet the start path succeeds and spawns every sampler. -/
theorem C6_invalid_config_still_starts :
    invalidConfig.validate =
        Except.error "Monitoring interval must be greater than 0" ∧
      start_monitoring invalidConfig "all" 100 =
        Except.ok ["vscode", "models", "terminal"] ∧
      start_monitoring invalidConfig "vscode" 100 = Except.ok ["vscode"] := by
  refine ⟨rfl, ?_, ?_⟩ <;> rfl

/-- C1: the percentile fields of get_performance_metrics are the hard-coded
zeros of storage.rs lines 215 to 217.  For the synthetic set of 100 events
with durations uniformly covering 10 ms to 1000 ms the query reports p50, p95
and p99 all equal to 0 ms, while the exact nearest-rank order statistics are
500 ms, 950 ms and 990 ms: the reported values are not within one bucket
width of the true percentiles on any plausible bucketing. -/
theorem C1_percentiles_hardcoded_zero :
    ((get_performance_metrics synNow synDb).map fun m =>
        (m.component, m.total_events, m.p50_duration_ms, m.p95_duration_ms,
          m.p99_duration_ms)) =
      [(ComponentType.VSCode, 100, 0, 0, 0)] ∧
      specExactPercentile 50 synDurationsMs = 500 ∧
      specExactPercentile 95 synDurationsMs = 950 ∧
      specExactPercentile 99 synDurationsMs = 990 := by
  refine ⟨by decide, by decide, by decide, by decide⟩

/-- C3 counterexample: the aggregation work of a metrics query grows linearly
with the number of stored events passing the window filter: with 100
identical recent events stored the query aggregates 100 rows, with 200 it
aggregates 200, refuting that query cost does not grow with the total number
of stored events (and there is no incremental per-class state: every query
starts from the empty aggregate).  Moreover the window is not one hour: a row
five hours old but on the cutoff's UTC date is scanned too. -/
theorem C3_counterexample :
    (metricsScan synNow (List.replicate 100 recentRow)).2 = 100 ∧
      (metricsScan synNow (List.replicate 200 recentRow)).2 = 200 ∧
      staleRow.timestamp + oneHourUs < synNow ∧
      (metricsScan synNow [staleRow]).2 = 1 := by
  have hf : ∀ n : Nat,
      ((List.replicate n recentRow).filter (inWindow synNow)).length = n := by
    intro n
    have h1 : (List.replicate n recentRow).filter (inWindow synNow) =
        List.replicate n recentRow :=
      List.filter_eq_self.mpr fun a ha => by
        rw [List.eq_of_mem_replicate ha]; decide
    rw [h1, List.length_replicate]
  exact ⟨by rw [metricsScan_rows, hf], by rw [metricsScan_rows, hf],
    by decide, by decide⟩

theorem metricsScan_fst_filter (now : Nat) (db : EventTable) :
    (metricsScan now db).1 = (metricsScan now (db.filter (inWindow now))).1 := by
  induction db with
  | nil => rfl
  | cons r rest ih =>
      cases h : inWindow now r <;>
        simp [metricsScan, List.filter_cons, h, ih]

/-- C3 amended: get_performance_metrics maintains no incremental state; each
query recomputes the per-class aggregates by scanning every stored event
that passes the window filter (date-granular, see inWindow: every event
whose UTC date is on or after the cutoff's date, a span of up to about 25
hours).  The rows consumed equal the number of such stored events, so one
more stored passing event means one more row aggregated, and the result is a
pure function of that date-granular slice of the persisted history. -/
theorem C3_metrics_recomputed_by_window_scan (now : Nat) (db : EventTable)
    (r : StoredRow) :
    (metricsScan now db).2 = (db.filter (inWindow now)).length ∧
      (metricsScan now (r :: db)).2 =
        (metricsScan now db).2 + (if inWindow now r then 1 else 0) ∧
      get_performance_metrics now db =
        get_performance_metrics now (db.filter (inWindow now)) := by
  refine ⟨metricsScan_rows now db, ?_, ?_⟩
  · cases h : inWindow now r <;> simp [metricsScan, h]
  · unfold get_performance_metrics
    rw [metricsScan_fst_filter]

/-- C5 counterexample: an event emitted with source TestCommand is stored and
read back with source ProcessMonitor: the store and read round trip does not
preserve the source kind. -/
theorem C5_counterexample :
    ((get_recent_events (store_event [] probeEvent) 1).map fun e => e.event_source) =
        [EventSource.ProcessMonitor] ∧
      probeEvent.event_source = EventSource.TestCommand ∧
      ¬ EventSource.ProcessMonitor = EventSource.TestCommand := by
  refine ⟨by decide, rfl, by decide⟩

/-- C5 amended: the store and read round trip preserves timestamp, component
class, duration in microseconds, description and metadata, and assigns the
persisted id; the source kind alone is not preserved: every read-back event
carries ProcessMonitor regardless of what was stored (storage.rs line 157). -/
theorem C5_roundtrip_preserves_all_but_source (rowId : Int) (e : LatencyEvent) :
    (rowToEvent (eventToRow rowId e)).timestamp = e.timestamp ∧
      (rowToEvent (eventToRow rowId e)).component_type = e.component_type ∧
      (rowToEvent (eventToRow rowId e)).duration_us = e.duration_us ∧
      (rowToEvent (eventToRow rowId e)).description = e.description ∧
      (rowToEvent (eventToRow rowId e)).metadata = e.metadata ∧
      (rowToEvent (eventToRow rowId e)).id = some rowId ∧
      (rowToEvent (eventToRow rowId e)).event_source = EventSource.ProcessMonitor := by
  refine ⟨rfl, ?_, ?_, rfl, rfl, rfl, rfl⟩
  · show parseComponentType e.component_type.debugStr = e.component_type
    cases e.component_type <;> decide
  · show e.duration_us * 1000 / 1000 = e.duration_us
    omega

/-- C9 counterexample: an idle shell is matched by the terminal
classification rule, yet its tick emits no event for it, because the emission
loop requires cpu usage above 0.1 percent: a matched process is skipped. -/
theorem C9_counterexample :
    terminalMatch idleBash = true ∧ terminalTick 1000 500 [idleBash] = [] := by
  refine ⟨by decide, by decide⟩

/-- C9 amended: on each tick the VS Code sampler emits exactly one event per
process matched by its rules (one per vscodeMatch plus one per
extensionHostMatch), each carrying the scan's elapsed time as duration; the
terminal sampler emits one event per matched process only when that process's
cpu usage exceeds 0.1 percent, skipping idle matches. -/
theorem C9_one_event_per_match_with_cpu_gate (now elapsed : Nat)
    (procs : List ProcessInfo) :
    (vscodeTick now elapsed procs).length =
        (procs.filter vscodeMatch).length + (procs.filter extensionHostMatch).length ∧
      (terminalTick now elapsed procs).length =
        (procs.filter terminalEmits).length ∧
      ((vscodeTick now elapsed procs ++ terminalTick now elapsed procs).all
          fun e => e.durationNanos == elapsed) = true := by
  refine ⟨?_, ?_, ?_⟩
  · unfold vscodeTick
    rw [List.length_append, List.length_map, List.length_map]
  · unfold terminalTick
    rw [filterMap_ite_length (fun p => 100 < p.cpuMilliPercent) _
      (procs.filter terminalMatch)]
    rw [List.filter_filter]
    congr 1
    apply List.filter_congr
    intro a _
    unfold terminalEmits
    rw [Bool.and_comm]
  · rw [List.all_eq_true]
    intro e he
    rw [List.mem_append] at he
    rcases he with he | he
    · unfold vscodeTick at he
      rw [List.mem_append] at he
      rcases he with he | he <;>
      · obtain ⟨p, hp, hpe⟩ := List.mem_map.mp he
        subst hpe
        simp [LatencyEvent.new]
    · unfold terminalTick at he
      obtain ⟨p, hp, hsome⟩ := List.mem_filterMap.mp he
      by_cases hc : 100 < p.cpuMilliPercent
      · rw [if_pos hc] at hsome
        obtain rfl := Option.some.inj hsome
        simp [LatencyEvent.new]
      · rw [if_neg hc] at hsome
        cases hsome

/-- C10 counterexample: a stored event whose description contains a newline
yields a CSV report of three lines for one event (the comma replacement does
not touch newlines), refuting that no event spans or splits a line. -/
theorem C10_counterexample :
    (generate_report [nlRow] "1h" "csv").toOption.map newlineCount = some 3 ∧
      (get_recent_events [nlRow] 100).length = 1 := by
  refine ⟨by decide, by decide⟩

/-- C10 amended: generate_report errs exactly when the format is neither
json nor csv; the csv report consists of the header line plus exactly one
line per returned event whenever no returned description contains a newline
(commas in descriptions are replaced by semicolons, but a newline inside a
description still splits the line). -/
theorem C10_report_errors_iff_bad_format (db : EventTable) (since format : String) :
    ((generate_report db since format).isOk = true ↔
        (format = "json" ∨ format = "csv")) ∧
      (format = "csv" →
        ((get_recent_events db 100).all fun e => newlineCount e.description == 0) = true →
        (generate_report db since format).toOption.map newlineCount =
          some (1 + (get_recent_events db 100).length)) := by
  constructor
  · unfold generate_report
    by_cases h1 : format = "json"
    · simp [h1, Except.isOk, Except.toBool]
    · by_cases h2 : format = "csv" <;> simp [h1, h2, Except.isOk, Except.toBool]
  · intro hf hall
    subst hf
    unfold generate_report
    rw [if_neg (by decide), if_pos rfl]
    show some (newlineCount _) = _
    rw [newlineCount_csvFold _ csvHeader hall,
      show newlineCount csvHeader = 1 from by decide]

/-- Witness for the amended C10 theorem: at the empty store and the csv
format, both hypotheses hold and the report is exactly the header line. -/
theorem C10_report_errors_iff_bad_format_witness :
    (generate_report [] "1h" "csv").toOption.map newlineCount =
      some (1 + (get_recent_events ([] : EventTable) 100).length) :=
  (C10_report_errors_iff_bad_format [] "1h" "csv").2 rfl (by decide)
